import Mathlib

set_option maxRecDepth 100000

/-!
Shallow embedding of the partition-discovery core of `exhume_partitions`
(src/lib.rs, src/mbr.rs, src/ebr.rs, src/gpt.rs).

Bytes are modelled as `Nat` values; a disk image ("Body") is a total byte
source `Nat → Nat` (reads never fail in the pure model; every read applies
`% 256`, the u8 invariant of the Rust buffers).  Machine integers are `Nat`
with an explicit `% 2^32` where Rust u32 arithmetic can wrap.  The EBR
walker's unbounded recursion is given an explicit fuel parameter: `none`
means the recursion depth exceeded the fuel, i.e. the Rust code would still
be recursing at that depth.
-/

/-- Byte of a byte list at index `i` (cursor reads; 0 past the end). -/
def byteAt (bs : List Nat) (i : Nat) : Nat := bs.getD i 0

/-- `read_u16::<LittleEndian>` at offset `i`. -/
def readU16LE (bs : List Nat) (i : Nat) : Nat :=
  byteAt bs i + 256 * byteAt bs (i + 1)

/-- `read_u32::<LittleEndian>` at offset `i`. -/
def readU32LE (bs : List Nat) (i : Nat) : Nat :=
  byteAt bs i + 256 * byteAt bs (i + 1) + 65536 * byteAt bs (i + 2) +
    16777216 * byteAt bs (i + 3)

/-- `read_u64::<LittleEndian>` at offset `i`. -/
def readU64LE (bs : List Nat) (i : Nat) : Nat :=
  readU32LE bs i + 4294967296 * readU32LE bs (i + 4)

/-- A seek to `off` followed by a read of `len` bytes from the body. -/
def readBytes (disk : Nat → Nat) (off len : Nat) : List Nat :=
  (List.range len).map fun i => disk (off + i) % 256

/-- mbr.rs: `MBRPartitionEntry` (one 16-byte on-disk record). -/
structure MBRPartitionEntry where
  boot_indicator : Nat
  start_chs : Nat × Nat × Nat
  partition_type : Nat
  end_chs : Nat × Nat × Nat
  start_lba : Nat
  size_sectors : Nat
  sector_size : Nat
  first_byte_addr : Nat
deriving DecidableEq, Repr

/-- The all-zero entry (`MBRPartitionEntry::default()`). -/
def MBRPartitionEntry.empty : MBRPartitionEntry :=
  ⟨0, (0, 0, 0), 0, (0, 0, 0), 0, 0, 0, 0⟩

/-- mbr.rs `chs_tuple`: head = byte 0, sector = byte 1 & 0x3F,
cylinder = ((byte 1 & 0xC0) << 2) | byte 2; returned as
(cylinder, head, sector). -/
def MBRPartitionEntry.chs_tuple (bytes : Nat × Nat × Nat) : Nat × Nat × Nat :=
  let head := bytes.1
  let sector := Nat.land bytes.2.1 0x3F
  let cylinder := Nat.lor (Nat.shiftLeft (Nat.land bytes.2.1 0xC0) 2) bytes.2.2
  (cylinder, head, sector)

/-- mbr.rs `start_chs_tuple`. -/
def MBRPartitionEntry.start_chs_tuple (e : MBRPartitionEntry) : Nat × Nat × Nat :=
  MBRPartitionEntry.chs_tuple e.start_chs

/-- mbr.rs `end_chs_tuple`. -/
def MBRPartitionEntry.end_chs_tuple (e : MBRPartitionEntry) : Nat × Nat × Nat :=
  MBRPartitionEntry.chs_tuple e.end_chs

/-- mbr.rs: `MBR` (one 512-byte boot sector). -/
structure MBR where
  bootloader : List Nat
  partition_table : List MBRPartitionEntry
  boot_signature : Nat
deriving DecidableEq, Repr

/-- One 16-byte partition-table entry decoded at offset `off`
(`MBR::from_bytes` loop body; `sector_size` is fixed at 512 and
`first_byte_addr = sector_size * start_lba`). -/
def decodeMbrEntry (bs : List Nat) (off : Nat) : MBRPartitionEntry :=
  let start_lba := readU32LE bs (off + 8)
  { boot_indicator := byteAt bs off
    start_chs := (byteAt bs (off + 1), byteAt bs (off + 2), byteAt bs (off + 3))
    partition_type := byteAt bs (off + 4)
    end_chs := (byteAt bs (off + 5), byteAt bs (off + 6), byteAt bs (off + 7))
    start_lba := start_lba
    size_sectors := readU32LE bs (off + 12)
    sector_size := 512
    first_byte_addr := 512 * start_lba }

/-- The decoding part of `MBR::from_bytes` (446-byte bootloader, four
16-byte entries at offsets 446/462/478/494, LE u16 signature at 510).
Reached only after the 512-byte length check. -/
def MBR.from_bytes_ok (bs : List Nat) : MBR :=
  { bootloader := bs.take 446
    partition_table :=
      [decodeMbrEntry bs 446, decodeMbrEntry bs 462,
       decodeMbrEntry bs 478, decodeMbrEntry bs 494]
    boot_signature := readU16LE bs 510 }

/-- Outcome of `MBR::from_bytes`: on fewer than 512 bytes the Rust code
calls `std::process::exit(1)` (modelled as `exited 1`), otherwise it
returns the decoded struct. -/
inductive MbrDecodeResult where
  | exited (code : Nat)
  | ok (m : MBR)
deriving DecidableEq, Repr

/-- mbr.rs `MBR::from_bytes`. -/
def MBR.from_bytes (bs : List Nat) : MbrDecodeResult :=
  if bs.length < 512 then .exited 1 else .ok (MBR.from_bytes_ok bs)

/-- mbr.rs `MBR::is_mbr`: compares the boot signature with 0xAA55. -/
def MBR.is_mbr (m : MBR) : Bool := m.boot_signature == 0xAA55

/-- ebr.rs: the MBR-shaped sector read at `lba * sector_size` (the read is
always 512 bytes, so the length check of `from_bytes` always passes). -/
def sectorAt (disk : Nat → Nat) (sector_size lba : Nat) : MBR :=
  MBR.from_bytes_ok (readBytes disk (lba * sector_size) 512)

/-- Partition-table slot `idx` of the EBR sector at `lba`. -/
def slotAt (disk : Nat → Nat) (sector_size lba idx : Nat) : MBRPartitionEntry :=
  (sectorAt disk sector_size lba).partition_table.getD idx MBRPartitionEntry.empty

/-- ebr.rs lines 29-30: rewrite slot 0's `start_lba` as
`start_lba + logical.start_lba` (u32 addition, hence `% 2^32`) and
recompute `first_byte_addr` from the corrected LBA. -/
def correctEbrSlot0 (start_lba sector_size : Nat) (e : MBRPartitionEntry) :
    MBRPartitionEntry :=
  let lba := (start_lba + e.start_lba) % 4294967296
  { e with start_lba := lba, first_byte_addr := lba * sector_size }

/-- ebr.rs `parse_ebr`.  The Rust function recurses with no depth cap and
no visited set; `fuel` bounds the recursion depth in the embedding and
`none` means the traversal did not finish within `fuel` links. -/
def parse_ebr (fuel : Nat) (disk : Nat → Nat) (start_lba sector_size : Nat) :
    Option (List MBRPartitionEntry) :=
  match fuel with
  | 0 => none
  | Nat.succ fuel =>
    let logical := slotAt disk sector_size start_lba 0
    let found :=
      if logical.partition_type ≠ 0 then
        [correctEbrSlot0 start_lba sector_size logical]
      else []
    let nxt := slotAt disk sector_size start_lba 1
    if nxt.partition_type ≠ 0 then
      -- slot 1's stored LBA is passed unchanged as the next relative LBA
      (parse_ebr fuel disk nxt.start_lba sector_size).map fun further =>
        found ++ further
    else
      some found

/-- lib.rs `discover_mbr_partitions`: read 512 bytes at the start of the
body, decode, and fail unless `is_mbr` holds. -/
def discover_mbr_partitions (disk : Nat → Nat) : Except String MBR :=
  let main_mbr := MBR.from_bytes_ok (readBytes disk 0 512)
  if main_mbr.is_mbr then .ok main_mbr
  else .error "No MBR signature found"

/-- The slot loop of lib.rs `discover_ebr_partitions`: for each slot whose
type is 0x05, 0x0F or 0x85, walk the EBR chain rooted at its `start_lba`
and append the results in order. -/
def ebrLoop (fuel : Nat) (disk : Nat → Nat) :
    List MBRPartitionEntry → Option (List MBRPartitionEntry)
  | [] => some []
  | p :: rest =>
    if p.partition_type == 0x05 || p.partition_type == 0x0F ||
        p.partition_type == 0x85 then
      (parse_ebr fuel disk p.start_lba p.sector_size).bind fun ext =>
        (ebrLoop fuel disk rest).map fun more => ext ++ more
    else ebrLoop fuel disk rest

/-- lib.rs `discover_ebr_partitions`. -/
def discover_ebr_partitions (fuel : Nat) (disk : Nat → Nat) (main_mbr : MBR) :
    Option (List MBRPartitionEntry) :=
  ebrLoop fuel disk main_mbr.partition_table

/-- Lowercase hex digit (the `x` conversion of Rust format strings). -/
def hexDigit (n : Nat) : Char :=
  if n < 10 then Char.ofNat (48 + n) else Char.ofNat (87 + n)

/-- `{:02x}` of a byte value. -/
def hex2 (b : Nat) : String :=
  String.mk [hexDigit (b / 16 % 16), hexDigit (b % 16)]

/-- gpt.rs `format_guid`: mixed-endian canonical GUID string, printed with
`{:02x}` (lowercase) in the byte order 3 2 1 0 - 5 4 - 7 6 - 8 9 - 10..15. -/
def format_guid (guid : List Nat) : String :=
  let g := fun i => byteAt guid i
  hex2 (g 3) ++ hex2 (g 2) ++ hex2 (g 1) ++ hex2 (g 0) ++ "-" ++
  hex2 (g 5) ++ hex2 (g 4) ++ "-" ++
  hex2 (g 7) ++ hex2 (g 6) ++ "-" ++
  hex2 (g 8) ++ hex2 (g 9) ++ "-" ++
  hex2 (g 10) ++ hex2 (g 11) ++ hex2 (g 12) ++ hex2 (g 13) ++
  hex2 (g 14) ++ hex2 (g 15)

/-- gpt.rs: `GPTHeader` (92 bytes). -/
structure GPTHeader where
  signature : List Nat
  revision : Nat
  header_size : Nat
  crc32 : Nat
  reserved : Nat
  current_lba : Nat
  backup_lba : Nat
  first_usable_lba : Nat
  last_usable_lba : Nat
  disk_guid : List Nat
  disk_guid_string : String
  partition_entry_lba : Nat
  num_partition_entries : Nat
  partition_entry_size : Nat
  partition_array_crc32 : Nat
deriving DecidableEq, Repr

/-- gpt.rs: `GPTPartitionEntry`.  `partition_name` keeps the 36 UTF-16LE
code units read by the decoder (the Rust code converts them with
`String::from_utf16_lossy`, a presentation detail). -/
structure GPTPartitionEntry where
  partition_guid : List Nat
  partition_guid_string : String
  partition_type_guid : List Nat
  partition_type_guid_string : String
  description : String
  starting_lba : Nat
  first_byte_addr : Nat
  size_sectors : Nat
  ending_lba : Nat
  attributes : Nat
  partition_name : List Nat
deriving DecidableEq, Repr

/-- gpt.rs `partition_type_description`: pure lookup from the canonical
type-GUID string to a static catalog (abridged here to representative
arms; the full constant table is data only and never affects control
flow). -/
def GPTPartitionEntry.partition_type_description (e : GPTPartitionEntry) : String :=
  let guid := format_guid e.partition_type_guid
  if guid = "00000000-0000-0000-0000-000000000000" then "Unused entry"
  else if guid = "c12a7328-f81f-11d2-ba4b-00a0c93ec93b" then "EFI System partition"
  else if guid = "ebd0a0a2-b9e5-4433-87c0-68b6b72699c7" then "Basic data partition"
  else "Unknown partition type"

/-- gpt.rs: `GPT` (header plus partition entries). -/
structure GPT where
  header : GPTHeader
  partition_entries : List GPTPartitionEntry
deriving DecidableEq, Repr

/-- gpt.rs `GPT::is_gpt`: the 8-byte signature must equal "EFI PART". -/
def GPT.is_gpt (g : GPT) : Bool :=
  g.header.signature == [0x45, 0x46, 0x49, 0x20, 0x50, 0x41, 0x52, 0x54]

/-- gpt.rs `GPT::from_bytes`: decode the 92-byte header (the entry list
stays empty; lib.rs fills it separately). -/
def GPT.from_bytes (bs : List Nat) : GPT :=
  let disk_guid := (bs.drop 56).take 16
  { header :=
      { signature := bs.take 8
        revision := readU32LE bs 8
        header_size := readU32LE bs 12
        crc32 := readU32LE bs 16
        reserved := readU32LE bs 20
        current_lba := readU64LE bs 24
        backup_lba := readU64LE bs 32
        first_usable_lba := readU64LE bs 40
        last_usable_lba := readU64LE bs 48
        disk_guid := disk_guid
        disk_guid_string := format_guid disk_guid
        partition_entry_lba := readU64LE bs 72
        num_partition_entries := readU32LE bs 80
        partition_entry_size := readU32LE bs 84
        partition_array_crc32 := readU32LE bs 88 }
    partition_entries := [] }

/-- The entry-decoding loop body of lib.rs `discover_gpt_partitions`:
type GUID (16), partition GUID (16), starting LBA, ending LBA, attributes
(u64 LE each), then 36 UTF-16LE name units; description and GUID strings
are derived immediately; `size_sectors` and `first_byte_addr` keep their
`default()` value 0 (the loop never sets them). -/
def decodeGptEntry (chunk : List Nat) : GPTPartitionEntry :=
  let type_guid := chunk.take 16
  let part_guid := (chunk.drop 16).take 16
  let e0 : GPTPartitionEntry :=
    { partition_guid := part_guid
      partition_guid_string := format_guid part_guid
      partition_type_guid := type_guid
      partition_type_guid_string := format_guid type_guid
      description := ""
      starting_lba := readU64LE chunk 32
      first_byte_addr := 0
      size_sectors := 0
      ending_lba := readU64LE chunk 40
      attributes := readU64LE chunk 48
      partition_name := (List.range 36).map fun i => readU16LE chunk (56 + 2 * i) }
  { e0 with description := e0.partition_type_description }

/-- lib.rs `discover_gpt_partitions`: seek to LBA 1 (byte offset 512,
`DEFAULT_SECTOR_SIZE`), read 1024 bytes, decode the header; on signature
match, read `num_partition_entries` consecutive records of
`partition_entry_size` bytes starting at `partition_entry_lba * 512` and
decode each one; on mismatch fail.  Every decoded record is pushed. -/
def discover_gpt_partitions (disk : Nat → Nat) : Except String GPT :=
  let lba_1 := readBytes disk 512 1024
  let gpt := GPT.from_bytes lba_1
  if gpt.is_gpt then
    let num_entries := gpt.header.num_partition_entries
    let esz := gpt.header.partition_entry_size
    let base := gpt.header.partition_entry_lba * 512
    let entries := (List.range num_entries).map fun k =>
      decodeGptEntry (readBytes disk (base + k * esz) esz)
    .ok { gpt with partition_entries := entries }
  else .error "No GPT signature found"

/-- lib.rs: `Partitions`, the discovery record. -/
structure Partitions where
  mbr : Option MBR
  ebr : Option (List MBRPartitionEntry)
  gpt : Option GPT
deriving DecidableEq, Repr

/-- `Ok`/`Err` downgraded to presence/absence (the `match` arms of
`Partitions::new`). -/
def exceptToOption {α : Type} (e : Except String α) : Option α :=
  match e with
  | .ok a => some a
  | .error _ => none

/-- lib.rs `Partitions::new`: MBR discovery failure is downgraded to
`mbr = none`; the EBR walk runs only when an MBR is present; GPT discovery
runs independently and its failure is downgraded to `gpt = none`.  The
Rust function always returns `Ok`; the only non-`some` outcome of the
embedding is EBR-walker fuel exhaustion (the unbounded recursion of
ebr.rs). -/
def Partitions.new (fuel : Nat) (disk : Nat → Nat) : Option Partitions :=
  match exceptToOption (discover_mbr_partitions disk) with
  | none =>
    some { mbr := none, ebr := none,
           gpt := exceptToOption (discover_gpt_partitions disk) }
  | some m =>
    (discover_ebr_partitions fuel disk m).map fun l =>
      { mbr := some m, ebr := some l,
        gpt := exceptToOption (discover_gpt_partitions disk) }

deriving instance DecidableEq for Except

/-- A well-formed EBR chain rooted at the head of the list: every link's
slot 0 has a non-zero type, every inner link's slot 1 has a non-zero type
and stores exactly the next link's relative LBA, and the last link's
slot 1 has type 0 (chain terminator). -/
def chainSpec (disk : Nat → Nat) (s : Nat) : List Nat → Bool
  | [] => true
  | [l] =>
    (slotAt disk s l 0).partition_type != 0 &&
      (slotAt disk s l 1).partition_type == 0
  | l :: l' :: rest =>
    (slotAt disk s l 0).partition_type != 0 &&
      ((slotAt disk s l 1).partition_type != 0 &&
        ((slotAt disk s l 1).start_lba == l' && chainSpec disk s (l' :: rest)))

/-- ASCII uppercase of a character. -/
def asciiUpperChar (c : Char) : Char :=
  if 97 ≤ c.toNat ∧ c.toNat ≤ 122 then Char.ofNat (c.toNat - 32) else c

/-- ASCII uppercase of a string. -/
def asciiUpper (s : String) : String := String.mk (s.data.map asciiUpperChar)

/-! Concrete images used by counterexamples and witnesses. -/

/-- The eight signature bytes "EFI PART". -/
def efiPart : List Nat := [0x45, 0x46, 0x49, 0x20, 0x50, 0x41, 0x52, 0x54]

/-- Image with a valid primary GPT header at LBA 1 declaring one
128-byte partition entry at LBA 2; the entry record is all zero, so its
partition type GUID is the all-zero (unused) GUID. -/
def gptZeroEntryDisk : Nat → Nat := fun n =>
  if n < 512 then 0
  else if n < 520 then efiPart.getD (n - 512) 0
  else if n = 584 then 2
  else if n = 592 then 1
  else if n = 596 then 128
  else 0

/-- The GPT decoded from `gptZeroEntryDisk`. -/
def gptZeroEntryGpt : GPT :=
  (exceptToOption (discover_gpt_partitions gptZeroEntryDisk)).getD (GPT.from_bytes [])

/-- A finite image as a byte list, read through `getD` (reads past the end
yield 0). -/
def diskOf (img : List Nat) : Nat → Nat := fun n => img.getD n 0

/-- A 1536-byte (3-sector) image whose LBA-1 sector is all zero (invalid
primary header) and whose last LBA (1536 / 512 - 1 = 2, byte offset 1024)
starts with a valid "EFI PART" backup header. -/
def backupOnlyImg : List Nat :=
  List.replicate 1024 0 ++ efiPart ++ List.replicate 504 0

/-- A 512-byte sector that ends in the 0xAA55 signature but whose four
partition-table slots are all zero (all unused). -/
def emptySlotsSector : List Nat := List.replicate 510 0 ++ [0x55, 0xAA]

/-- Image holding a two-link EBR chain: the EBR at relative LBA 100 has a
populated slot 0 (type 0x83, stored LBA 5) and a slot 1 of type 0x05
pointing at relative LBA 200; the EBR at LBA 200 has a populated slot 0
(type 0x83, stored LBA 7) and a zero slot 1 (chain end). -/
def twoLinkChainDisk : Nat → Nat := fun n =>
  if n = 51650 then 0x83
  else if n = 51654 then 5
  else if n = 51666 then 0x05
  else if n = 51670 then 200
  else if n = 102850 then 0x83
  else if n = 102854 then 7
  else 0

/-- The partitions found on `twoLinkChainDisk` with fuel 2. -/
def twoLinkChainResult : List MBRPartitionEntry :=
  (parse_ebr 2 twoLinkChainDisk 100 512).getD []

/-- Image with a circular EBR chain: the EBR at relative LBA 10 has a
populated slot 0 and a slot 1 of type 0x05 whose stored LBA is 10 again,
so the chain points back at itself forever. -/
def cyclicEbrDisk : Nat → Nat := fun n =>
  if n = 5570 then 0x83
  else if n = 5574 then 1
  else if n = 5586 then 0x05
  else if n = 5590 then 10
  else 0

/-- The all-zero image: no MBR signature, no GPT signature. -/
def zeroDisk : Nat → Nat := fun _ => 0

/-- The discovery record of the all-zero image. -/
def zeroRecord : Partitions := { mbr := none, ebr := none, gpt := none }

/-- Raw 16-byte mixed-endian form of C12A7328-F81F-11D2-BA4B-00A0C93EC93B:
the first three fields stored little-endian as 4-, 2- and 2-byte groups,
the remaining 8 bytes as stored. -/
def c12aRaw : List Nat :=
  [0x28, 0x73, 0x2A, 0xC1, 0x1F, 0xF8, 0xD2, 0x11,
   0xBA, 0x4B, 0x00, 0xA0, 0xC9, 0x3E, 0xC9, 0x3B]

/-! ## Theorems -/

/-- Claim C1, counterexample: on `gptZeroEntryDisk` the GPT discovery
returns a partition list that does contain an entry whose 16-byte type
GUID is all zero — all-zero-type-GUID slots are NOT dropped from the
returned sequence. -/
theorem gpt_zero_guid_entry_kept_cex :
    (exceptToOption (discover_gpt_partitions gptZeroEntryDisk)).map
      (fun g => g.partition_entries.map fun e => e.partition_type_guid) =
    some [List.replicate 16 0] := by decide

/-- Claim C1 (amended): `discover_gpt_partitions` retains every declared
entry — the decoded list always has exactly `header.num_partition_entries`
elements, all-zero-type-GUID slots included; such slots are skipped only
when rendering, not dropped from the returned sequence. -/
theorem gpt_all_entries_retained (disk : Nat → Nat) (g : GPT)
    (h : discover_gpt_partitions disk = Except.ok g) :
    g.partition_entries.length = g.header.num_partition_entries := by
  by_cases hg : (GPT.from_bytes (readBytes disk 512 1024)).is_gpt = true
  · simp only [discover_gpt_partitions, hg, if_true] at h
    cases h
    simp
  · simp only [discover_gpt_partitions, hg, if_false, Bool.false_eq_true] at h
    exact absurd h (by simp)

/-- Witness for C1: the theorem applied to `gptZeroEntryDisk`, whose single
declared (all-zero) entry is retained. -/
theorem gpt_all_entries_retained_witness :
    gptZeroEntryGpt.partition_entries.length =
      gptZeroEntryGpt.header.num_partition_entries :=
  gpt_all_entries_retained gptZeroEntryDisk gptZeroEntryGpt (by decide)

/-- Claim C2, counterexample: `backupOnlyImg` has a valid "EFI PART"
backup header at its last LBA ((1536 / 512) - 1 = 2), yet GPT discovery
fails outright — it never attempts the backup header. -/
theorem gpt_no_backup_fallback_cex :
    (GPT.from_bytes (readBytes (diskOf backupOnlyImg)
      ((backupOnlyImg.length / 512 - 1) * 512) 1024)).is_gpt = true ∧
    discover_gpt_partitions (diskOf backupOnlyImg) =
      Except.error "No GPT signature found" := by decide

/-- Claim C2 (amended): GPT discovery attempts only the header at absolute
LBA 1; whenever the signature check there fails it returns failure
immediately, regardless of any backup header at the last LBA of the
image. -/
theorem gpt_primary_only (disk : Nat → Nat)
    (h : (GPT.from_bytes (readBytes disk 512 1024)).is_gpt = false) :
    discover_gpt_partitions disk = Except.error "No GPT signature found" := by
  simp [discover_gpt_partitions, h]

/-- Witness for C2: the theorem applied to `backupOnlyImg`. -/
theorem gpt_primary_only_witness :
    discover_gpt_partitions (diskOf backupOnlyImg) =
      Except.error "No GPT signature found" :=
  gpt_primary_only (diskOf backupOnlyImg) (by decide)

/-- Claim C3, counterexample: a sector whose signature is 0xAA55 but whose
four partition-table slots are all unused (type 0x00 everywhere) is still
accepted by `is_mbr`. -/
theorem is_mbr_signature_only_cex :
    (MBR.from_bytes_ok emptySlotsSector).is_mbr = true ∧
    ((MBR.from_bytes_ok emptySlotsSector).partition_table.all
      fun e => e.partition_type == 0) = true := by decide

/-- Claim C3 (amended): for every decoded MBR, `is_mbr` returns true if
and only if the boot signature (the LE u16 at offset 510) equals 0xAA55 —
the partition-table slots play no part in the verdict. -/
theorem is_mbr_iff_signature (bs : List Nat) :
    (MBR.from_bytes_ok bs).is_mbr = true ↔ readU16LE bs 510 = 0xAA55 := by
  simp [MBR.is_mbr, MBR.from_bytes_ok]

/-- Claim C8, counterexample: on an input shorter than 512 bytes
`MBR::from_bytes` terminates the process with exit code 1
(`std::process::exit(1)`); no recoverable `TruncatedInput` error value is
ever returned to the caller. -/
theorem mbr_from_bytes_exit_cex :
    MBR.from_bytes (List.replicate 511 0) = MbrDecodeResult.exited 1 := by decide

/-- Claim C8 (amended): for every input shorter than 512 bytes the MBR
decoder exits the process with code 1 rather than returning an error
value, and it returns a decoded MBR exactly when at least 512 bytes are
supplied. -/
theorem mbr_from_bytes_truncation (bs : List Nat) :
    (bs.length < 512 → MBR.from_bytes bs = MbrDecodeResult.exited 1) ∧
    (512 ≤ bs.length →
      MBR.from_bytes bs = MbrDecodeResult.ok (MBR.from_bytes_ok bs)) := by
  constructor
  · intro h; simp [MBR.from_bytes, h]
  · intro h; simp [MBR.from_bytes, Nat.not_lt.mpr h]

/-- Witness for C8: a 100-byte input exits, a 512-byte input decodes. -/
theorem mbr_from_bytes_truncation_witness :
    MBR.from_bytes (List.replicate 100 0) = MbrDecodeResult.exited 1 ∧
    MBR.from_bytes (List.replicate 512 0) =
      MbrDecodeResult.ok (MBR.from_bytes_ok (List.replicate 512 0)) :=
  ⟨(mbr_from_bytes_truncation (List.replicate 100 0)).1 (by decide),
   (mbr_from_bytes_truncation (List.replicate 512 0)).2 (by decide)⟩

/-- Claim C9, counterexample: formatting the raw mixed-endian bytes of
C12A7328-F81F-11D2-BA4B-00A0C93EC93B does not reproduce that string
exactly — `format_guid` prints lowercase hex. -/
theorem format_guid_case_cex :
    format_guid c12aRaw = "c12a7328-f81f-11d2-ba4b-00a0c93ec93b" ∧
    format_guid c12aRaw ≠ "C12A7328-F81F-11D2-BA4B-00A0C93EC93B" := by decide

/-- Claim C9 (amended): the round-trip reproduces the original GUID string
up to ASCII case: `format_guid` yields the lowercase canonical spelling in
the form xxxxxxxx-xxxx-xxxx-xxxx-xxxxxxxxxxxx, whose ASCII uppercase is
the original string. -/
theorem format_guid_roundtrip_lower :
    format_guid c12aRaw = "c12a7328-f81f-11d2-ba4b-00a0c93ec93b" ∧
    asciiUpper (format_guid c12aRaw) = "C12A7328-F81F-11D2-BA4B-00A0C93EC93B" := by
  decide

/-- Claim C10, counterexample: for the CHS bytes [0x10, 0x81, 0x05] the
decoded cylinder is 0x0205, not 0x0105 as the claim states. -/
theorem chs_tuple_cylinder_cex :
    MBRPartitionEntry.chs_tuple (0x10, 0x81, 0x05) = (0x205, 0x10, 0x01) ∧
    (0x205 : Nat) ≠ 0x105 := by decide

/-- Claim C10 (amended): CHS decoding is pure with these values: the bytes
[0x00, 0x00, 0x00] decode to (0, 0, 0); for [0x10, 0x81, 0x05] the
cylinder is ((0x81 AND 0xC0) <<< 2) OR 0x05 = 0x0205, the head is 0x10 and
the sector is 0x81 AND 0x3F = 0x01. -/
theorem chs_tuple_values :
    MBRPartitionEntry.chs_tuple (0, 0, 0) = (0, 0, 0) ∧
    MBRPartitionEntry.chs_tuple (0x10, 0x81, 0x05) =
      (Nat.lor (Nat.shiftLeft (Nat.land 0x81 0xC0) 2) 0x05, 0x10,
        Nat.land 0x81 0x3F) ∧
    Nat.lor (Nat.shiftLeft (Nat.land 0x81 0xC0) 2) 0x05 = 0x205 := by decide

/-- Claim C6: the EBR walker has no recursion cap and no visited set — on
the circular chain of `cyclicEbrDisk` (whose slot 1 points back at its own
relative LBA with a non-zero type) the traversal exceeds every fuel bound:
for every fuel `n` the walk is still recursing, and no error is ever
produced instead. -/
theorem parse_ebr_cycle_diverges :
    ∀ fuel : Nat, parse_ebr fuel cyclicEbrDisk 10 512 = none := by
  intro fuel
  induction fuel with
  | zero => rfl
  | succ n ih =>
    have h2 : (slotAt cyclicEbrDisk 512 10 1).start_lba = 10 := by decide
    have h1 : (slotAt cyclicEbrDisk 512 10 1).partition_type ≠ 0 := by decide
    simp only [parse_ebr]
    rw [h2, ih, if_pos h1]
    rfl

/-- Claim C4: on a well-formed chain (`chainSpec`) rooted at `l`, the
walker yields exactly one logical partition per link, in chain order: a
chain of N links whose slot 0 entries are all populated and whose last
slot 1 has type 0x00 produces exactly the N corrected slot-0 entries. -/
theorem parse_ebr_chain_yields_links (disk : Nat → Nat) (s : Nat) :
    ∀ (rest : List Nat) (l fuel : Nat),
      chainSpec disk s (l :: rest) = true → (l :: rest).length ≤ fuel →
      parse_ebr fuel disk l s =
        some ((l :: rest).map fun lba =>
          correctEbrSlot0 lba s (slotAt disk s lba 0)) := by
  intro rest
  induction rest with
  | nil =>
    intro l fuel hc hf
    cases fuel with
    | zero => simp at hf
    | succ m =>
      simp only [chainSpec, Bool.and_eq_true, bne_iff_ne, beq_iff_eq] at hc
      obtain ⟨h0, h1⟩ := hc
      simp only [parse_ebr]
      rw [h1]
      simp [h0]
  | cons l' rest ih =>
    intro l fuel hc hf
    cases fuel with
    | zero => simp at hf
    | succ m =>
      simp only [chainSpec, Bool.and_eq_true, bne_iff_ne, beq_iff_eq] at hc
      obtain ⟨h0, h1, h2, h3⟩ := hc
      have hm : (l' :: rest).length ≤ m := by
        simp only [List.length_cons] at hf ⊢
        omega
      simp only [parse_ebr]
      rw [h2, ih l' m h3 hm, if_pos h1]
      simp [h0]

/-- Witness for C4: the theorem applied to the two-link chain of
`twoLinkChainDisk` yields exactly its two logical partitions in chain
order. -/
theorem parse_ebr_chain_yields_links_witness :
    parse_ebr 2 twoLinkChainDisk 100 512 =
      some ([100, 200].map fun lba =>
        correctEbrSlot0 lba 512 (slotAt twoLinkChainDisk 512 lba 0)) :=
  parse_ebr_chain_yields_links twoLinkChainDisk 512 [200] 100 2
    (by decide) (by decide)

/-- Claim C5: at every EBR link whose slot 0 has a non-zero type, the
recorded logical partition (the first entry the link contributes) has
`start_lba` equal to the link's relative LBA plus the stored slot-0 LBA
(u32 addition, exact below 2^32) and `first_byte_addr` equal to that
corrected absolute LBA times the sector size. -/
theorem parse_ebr_slot0_rebased (disk : Nat → Nat) (s start fuel : Nat)
    (l : List MBRPartitionEntry)
    (h0 : (slotAt disk s start 0).partition_type ≠ 0)
    (hlt : start + (slotAt disk s start 0).start_lba < 4294967296)
    (h : parse_ebr (fuel + 1) disk start s = some l) :
    l.head? = some { slotAt disk s start 0 with
      start_lba := start + (slotAt disk s start 0).start_lba
      first_byte_addr := (start + (slotAt disk s start 0).start_lba) * s } := by
  simp only [parse_ebr] at h
  by_cases h1 : (slotAt disk s start 1).partition_type ≠ 0
  · rw [if_pos h1] at h
    cases hp : parse_ebr fuel disk (slotAt disk s start 1).start_lba s with
    | none => rw [hp] at h; simp at h
    | some further =>
      rw [hp] at h
      simp only [Option.map_some', Option.some.injEq] at h
      subst h
      simp [h0, correctEbrSlot0, Nat.mod_eq_of_lt hlt]
  · rw [if_neg h1] at h
    simp only [Option.some.injEq] at h
    subst h
    simp [h0, correctEbrSlot0, Nat.mod_eq_of_lt hlt]

/-- Witness for C5: the theorem applied to the first link of
`twoLinkChainDisk` (relative LBA 100, stored slot-0 LBA 5). -/
theorem parse_ebr_slot0_rebased_witness :
    twoLinkChainResult.head? = some { slotAt twoLinkChainDisk 512 100 0 with
      start_lba := 100 + (slotAt twoLinkChainDisk 512 100 0).start_lba
      first_byte_addr :=
        (100 + (slotAt twoLinkChainDisk 512 100 0).start_lba) * 512 } :=
  parse_ebr_slot0_rebased twoLinkChainDisk 512 100 1 twoLinkChainResult
    (by decide) (by decide) (by decide)

/-- Helper for C7: a partition table with no extended-container slot
(types 0x05, 0x0F, 0x85) makes the EBR slot loop return the empty list. -/
theorem ebrLoop_no_extended (fuel : Nat) (disk : Nat → Nat) :
    ∀ l : List MBRPartitionEntry,
      (l.all fun e => !(e.partition_type == 0x05 || e.partition_type == 0x0F ||
        e.partition_type == 0x85)) = true →
      ebrLoop fuel disk l = some [] := by
  intro l
  induction l with
  | nil => intro _; rfl
  | cons p rest ih =>
    intro h
    simp only [List.all_cons, Bool.and_eq_true, Bool.not_eq_true'] at h
    obtain ⟨hp, hr⟩ := h
    simp only [ebrLoop, hp]
    exact ih hr

/-- Helper: the orchestrator when MBR discovery failed. -/
theorem partitions_new_none (fuel : Nat) (disk : Nat → Nat)
    (h : exceptToOption (discover_mbr_partitions disk) = none) :
    Partitions.new fuel disk =
      some { mbr := none, ebr := none,
             gpt := exceptToOption (discover_gpt_partitions disk) } := by
  unfold Partitions.new
  rw [h]

/-- Helper: the orchestrator when MBR discovery succeeded. -/
theorem partitions_new_some (fuel : Nat) (disk : Nat → Nat) (m : MBR)
    (h : exceptToOption (discover_mbr_partitions disk) = some m) :
    Partitions.new fuel disk =
      (discover_ebr_partitions fuel disk m).map fun l =>
        { mbr := some m, ebr := some l,
          gpt := exceptToOption (discover_gpt_partitions disk) } := by
  unfold Partitions.new
  rw [h]

/-- Claim C7: the discovery orchestrator degrades gracefully.  Its only
non-result outcome is fuel exhaustion of the EBR walker (the unbounded
recursion of ebr.rs, claim C6) — never a scheme failure.  Whenever a
record is produced: the MBR field is exactly the downgraded MBR-discovery
outcome; the GPT field is exactly the downgraded GPT-discovery outcome
(so GPT is attempted regardless of the MBR verdict); without an MBR no
EBR walk happens; with an MBR an EBR list is always present, and it is
empty when no slot has an extended-container type (0x05, 0x0F, 0x85). -/
theorem partitions_new_graceful :
    (∀ (disk : Nat → Nat) (fuel : Nat),
      Partitions.new fuel disk = none →
        ∃ m, exceptToOption (discover_mbr_partitions disk) = some m ∧
          discover_ebr_partitions fuel disk m = none) ∧
    (∀ (disk : Nat → Nat) (fuel : Nat) (p : Partitions),
      Partitions.new fuel disk = some p →
        p.mbr = exceptToOption (discover_mbr_partitions disk) ∧
        p.gpt = exceptToOption (discover_gpt_partitions disk) ∧
        (p.mbr = none → p.ebr = none) ∧
        (∀ m, p.mbr = some m →
          p.ebr = discover_ebr_partitions fuel disk m ∧ p.ebr ≠ none) ∧
        (∀ m, p.mbr = some m →
          (m.partition_table.all fun e => !(e.partition_type == 0x05 ||
            e.partition_type == 0x0F || e.partition_type == 0x85)) = true →
          p.ebr = some [])) := by
  constructor
  · intro disk fuel h
    cases hm : exceptToOption (discover_mbr_partitions disk) with
    | none => rw [partitions_new_none fuel disk hm] at h; cases h
    | some m =>
      refine ⟨m, rfl, ?_⟩
      rw [partitions_new_some fuel disk m hm] at h
      exact Option.map_eq_none'.mp h
  · intro disk fuel p h
    cases hm : exceptToOption (discover_mbr_partitions disk) with
    | none =>
      rw [partitions_new_none fuel disk hm] at h
      injection h with h
      subst h
      refine ⟨rfl, rfl, fun _ => rfl, ?_, ?_⟩
      · intro m2 hcontra
        exact absurd hcontra (by simp)
      · intro m2 hcontra _
        exact absurd hcontra (by simp)
    | some m =>
      rw [partitions_new_some fuel disk m hm] at h
      cases he : discover_ebr_partitions fuel disk m with
      | none => rw [he] at h; cases h
      | some l =>
        rw [he] at h
        injection h with h
        subst h
        refine ⟨rfl, rfl, ?_, ?_, ?_⟩
        · intro hcontra
          exact absurd hcontra (by simp)
        · intro m2 hm2
          have hmm : m = m2 := Option.some.inj hm2
          subst hmm
          exact ⟨he.symm, by simp⟩
        · intro m2 hm2 hall
          have hmm : m = m2 := Option.some.inj hm2
          subst hmm
          have hz := ebrLoop_no_extended fuel disk m.partition_table hall
          have hl : ebrLoop fuel disk m.partition_table = some l := he
          rw [hz] at hl
          injection hl with hl
          show some l = some []
          rw [← hl]

/-- Witness for C7: the theorem applied to the all-zero image (no MBR, no
GPT) with fuel 0: the orchestrator still returns a record, carrying
exactly the downgraded per-scheme outcomes. -/
theorem partitions_new_graceful_witness :
    zeroRecord.mbr = exceptToOption (discover_mbr_partitions zeroDisk) ∧
    zeroRecord.gpt = exceptToOption (discover_gpt_partitions zeroDisk) :=
  ⟨(partitions_new_graceful.2 zeroDisk 0 zeroRecord (by decide)).1,
   (partitions_new_graceful.2 zeroDisk 0 zeroRecord (by decide)).2.1⟩
